import Mathlib

/-!
Shallow embedding of the `chore_helper` Home Assistant integration
(`custom_components/chore_helper/{helpers,chore,config_flow}.py`) and proofs
about its specification claims.

Conventions of the embedding:
* Python values flowing through `Any`-typed parameters are modelled by `PyVal`.
* Python exceptions are modelled by `Except PyErr`; a `try/except` that catches
  an error class pattern-matches on the corresponding `PyErr` constructor.
* Dates are triples of numerals validated by the Gregorian-calendar rule; the
  relevant pieces of the CPython `datetime` library (`date.fromisoformat`,
  `datetime.fromisoformat`, `strptime` with the `"%H:%M"` and `"%m/%d"`
  formats, `isoformat`/`strftime`) are embedded directly, restricted to the
  input shapes those formats accept.
-/

/-- Gregorian leap-year rule, as used by CPython's `datetime` module. -/
def isLeapYear (y : Nat) : Bool :=
  (y % 4 == 0 && y % 100 != 0) || y % 400 == 0

/-- Number of days of month `m` (1-12) in year `y`, per the Gregorian calendar. -/
def daysInMonth (y m : Nat) : Nat :=
  if m == 1 || m == 3 || m == 5 || m == 7 || m == 8 || m == 10 || m == 12 then 31
  else if m == 4 || m == 6 || m == 9 || m == 11 then 30
  else if isLeapYear y then 29 else 28

/-- A Python `datetime.date`: year, month, day numerals. -/
structure Date where
  year : Nat
  month : Nat
  day : Nat
  deriving DecidableEq, Repr

/-- Validity of a `Date`: the constraints CPython's `date` constructor enforces
(`MINYEAR = 1`, `MAXYEAR = 9999`, month 1-12, day within the month). -/
def Date.valid (d : Date) : Bool :=
  1 ≤ d.year && d.year ≤ 9999 && 1 ≤ d.month && d.month ≤ 12 &&
    1 ≤ d.day && d.day ≤ daysInMonth d.year d.month

/-- A Python `datetime.datetime`: a date plus a time of day. -/
structure DateTime where
  date : Date
  hour : Nat
  minute : Nat
  second : Nat
  deriving DecidableEq, Repr

/-- Numeric value of a decimal digit character. -/
def digitVal (c : Char) : Nat := c.toNat - 48

/-- Two-digit zero-padded decimal rendering (`%02d` for values below 100). -/
def pad2 (n : Nat) : List Char :=
  [Nat.digitChar (n / 10 % 10), Nat.digitChar (n % 10)]

/-- Four-digit zero-padded decimal rendering (`%04d` for values below 10000). -/
def pad4 (n : Nat) : List Char :=
  [Nat.digitChar (n / 1000 % 10), Nat.digitChar (n / 100 % 10),
    Nat.digitChar (n / 10 % 10), Nat.digitChar (n % 10)]

/-- `date.isoformat()`: `YYYY-MM-DD` with zero padding. -/
def Date.isoformat (d : Date) : String :=
  ⟨pad4 d.year ++ '-' :: pad2 d.month ++ '-' :: pad2 d.day⟩

/-- `date.fromisoformat` on the canonical `YYYY-MM-DD` shape: ten characters,
fixed dash positions, all other positions decimal digits, and the resulting
numerals forming a valid calendar date.  Any other input is rejected
(CPython raises `ValueError`). -/
def dateFromIsoList : List Char → Option Date
  | [y1, y2, y3, y4, s1, m1, m2, s2, d1, d2] =>
    if s1 = '-' ∧ s2 = '-' ∧ y1.isDigit ∧ y2.isDigit ∧ y3.isDigit ∧ y4.isDigit ∧
        m1.isDigit ∧ m2.isDigit ∧ d1.isDigit ∧ d2.isDigit then
      let d : Date :=
        ⟨digitVal y1 * 1000 + digitVal y2 * 100 + digitVal y3 * 10 + digitVal y4,
          digitVal m1 * 10 + digitVal m2, digitVal d1 * 10 + digitVal d2⟩
      if d.valid then some d else none
    else none
  | _ => none

/-- `date.fromisoformat` on a string. -/
def dateFromIso (s : String) : Option Date := dateFromIsoList s.data

/-- Fixed-width two-digit time field (`HH`, `MM` or `SS`) bounded by `hi`. -/
def timeField2 (c1 c2 : Char) (hi : Nat) : Option Nat :=
  if c1.isDigit ∧ c2.isDigit ∧ digitVal c1 * 10 + digitVal c2 ≤ hi then
    some (digitVal c1 * 10 + digitVal c2)
  else none

/-- `datetime.fromisoformat`: a `YYYY-MM-DD` date, optionally followed by a
`'T'` or `' '` separator and a `HH:MM` or `HH:MM:SS` time (the fractional and
timezone suffixes, unused by this integration's stored attributes, are not
modelled). -/
def datetimeFromIsoList (cs : List Char) : Option DateTime :=
  match dateFromIsoList (cs.take 10) with
  | none => none
  | some d =>
    match cs.drop 10 with
    | [] => some ⟨d, 0, 0, 0⟩
    | sep :: rest =>
      if sep = 'T' ∨ sep = ' ' then
        match rest with
        | [h1, h2, ':', n1, n2] =>
          match timeField2 h1 h2 23, timeField2 n1 n2 59 with
          | some h, some n => some ⟨d, h, n, 0⟩
          | _, _ => none
        | [h1, h2, ':', n1, n2, ':', s1, s2] =>
          match timeField2 h1 h2 23, timeField2 n1 n2 59, timeField2 s1 s2 59 with
          | some h, some n, some s => some ⟨d, h, n, s⟩
          | _, _, _ => none
        | _ => none
      else none

/-- `datetime.fromisoformat` on a string. -/
def datetimeFromIso (s : String) : Option DateTime := datetimeFromIsoList s.data

/-- One `strptime` numeric token of one or two digits, greedy: two digits are
consumed when two are available, else one.  Mirrors CPython's `_strptime`
field regexes (e.g. `%H` is `2[0-3]|[0-1]\d|\d`), whose alternatives cover
exactly the one- and two-digit spellings of the in-range values; the range
check is applied by the caller. -/
def parseTok2 : List Char → Option (Nat × List Char)
  | c1 :: rest =>
    if c1.isDigit then
      match rest with
      | c2 :: rest2 =>
        if c2.isDigit then some (digitVal c1 * 10 + digitVal c2, rest2)
        else some (digitVal c1, rest)
      | [] => some (digitVal c1, [])
    else none
  | [] => none

/-- `datetime.strptime(value, "%H:%M")`: hour token (value 0-23), `':'`,
minute token (value 0-59), end of input. -/
def strptimeHM (cs : List Char) : Option (Nat × Nat) :=
  match parseTok2 cs with
  | some (h, ':' :: rest) =>
    if h ≤ 23 then
      match parseTok2 rest with
      | some (m, []) => if m ≤ 59 then some (h, m) else none
      | _ => none
    else none
  | _ => none

/-- `datetime.strptime(value, "%m/%d")` followed by taking the date: month
token (value 1-12), `'/'`, day token, end of input, and the day must exist in
that month of `strptime`'s default year 1900 (CPython's `%m` regex
`1[0-2]|0[1-9]|[1-9]` and `%d` regex `3[01]|[12]\d|0[1-9]|[1-9]` accept
exactly the one- and two-digit spellings of the nonzero in-range values; the
day-of-month bound is enforced when the `datetime` is constructed). -/
def strptimeMD (cs : List Char) : Option (Nat × Nat) :=
  match parseTok2 cs with
  | some (m, '/' :: rest) =>
    if 1 ≤ m ∧ m ≤ 12 then
      match parseTok2 rest with
      | some (d, []) => if 1 ≤ d ∧ d ≤ daysInMonth 1900 m then some (m, d) else none
      | _ => none
    else none
  | _ => none

/-- `time.strftime("%H:%M")`. -/
def fmtHM (h m : Nat) : String := ⟨pad2 h ++ ':' :: pad2 m⟩

/-- `date.strftime("%m/%d")`. -/
def fmtMD (m d : Nat) : String := ⟨pad2 m ++ '/' :: pad2 d⟩

/-- Specification-side description of one `strptime` numeric field: the
character list is the one- or two-digit decimal spelling of the value. -/
def isTok (cs : List Char) (v : Nat) : Prop :=
  (∃ c, cs = [c] ∧ c.isDigit = true ∧ v = digitVal c) ∨
  (∃ c1 c2, cs = [c1, c2] ∧ c1.isDigit = true ∧ c2.isDigit = true ∧
    v = digitVal c1 * 10 + digitVal c2)

/-- Specification-side description of a string matching the `"%H:%M"`
format: an hour field, a colon, and a minute field, with in-range values. -/
def matchesHM (s : String) (h m : Nat) : Prop :=
  ∃ t1 t2, s.data = t1 ++ ':' :: t2 ∧ isTok t1 h ∧ isTok t2 m ∧ h ≤ 23 ∧ m ≤ 59

/-- Specification-side description of a string matching the `"%m/%d"`
format with a day valid in `strptime`'s default year 1900: a month field, a
slash, and a day field, with in-range values. -/
def matchesMD (s : String) (m d : Nat) : Prop :=
  ∃ t1 t2, s.data = t1 ++ '/' :: t2 ∧ isTok t1 m ∧ isTok t2 d ∧
    1 ≤ m ∧ m ≤ 12 ∧ 1 ≤ d ∧ d ≤ daysInMonth 1900 m

/-- A dynamically-typed Python value, as far as this integration passes them
around (`None`, dates, datetimes, strings, integers, booleans). -/
inductive PyVal where
  | none : PyVal
  | pdate (d : Date) : PyVal
  | pdatetime (dt : DateTime) : PyVal
  | str (s : String) : PyVal
  | int (z : Int) : PyVal
  | bool (b : Bool) : PyVal
  deriving DecidableEq, Repr

/-- The Python exceptions this code can raise: `ValueError`, `TypeError`,
`KeyError`, and `voluptuous.Invalid` (carrying its message).  The spec's
`InvalidInput` error kind covers `ValueError` and `vol.Invalid`. -/
inductive PyErr where
  | valueError : PyErr
  | typeError : PyErr
  | keyError : PyErr
  | volInvalid (msg : String) : PyErr
  deriving DecidableEq, Repr

/-- Python truthiness for the values of `PyVal`. -/
def PyVal.truthy : PyVal → Bool
  | .none => false
  | .pdate _ => true
  | .pdatetime _ => true
  | .str s => s ≠ ""
  | .int z => z ≠ 0
  | .bool b => b

/-- `helpers.to_date`: `None` raises `ValueError`; an `isinstance(day, date)`
value is returned unchanged — note that in Python a `datetime` IS a `date`
(subclass), so a `datetime` argument also takes this first branch and is
returned as-is, making the dedicated `datetime` branch of the source
unreachable; a string goes through `date.fromisoformat`, which raises
`ValueError` when unparseable; any other type makes `date.fromisoformat`
raise `TypeError`. -/
def to_date (day : PyVal) : Except PyErr PyVal :=
  match day with
  | .none => .error .valueError
  | .pdate d => .ok (.pdate d)
  | .pdatetime dt => .ok (.pdatetime dt)
  | .str s =>
    match dateFromIso s with
    | some d => .ok (.pdate d)
    | _ => .error .valueError
  | .int _ => .error .typeError
  | .bool _ => .error .typeError

/-- `helpers.time_text`: `None` or `""` yields `""`; a string is parsed with
`strptime(value, "%H:%M")` and re-rendered with `strftime("%H:%M")`, a parse
failure raising `vol.Invalid(f"Invalid date: {value}")`; a non-string,
non-`None` value is passed to `strptime`, which raises `TypeError` — not
caught by the `except ValueError` clause. -/
def time_text (value : PyVal) : Except PyErr String :=
  if value = .none ∨ value = .str "" then .ok ""
  else
    match value with
    | .str s =>
      match strptimeHM s.data with
      | some (h, m) => .ok (fmtHM h m)
      | _ => .error (.volInvalid ("Invalid date: " ++ s))
    | _ => .error .typeError

/-- `helpers.month_day_text`: same contract as `time_text` with the `"%m/%d"`
format (anchored at `strptime`'s default year 1900). -/
def month_day_text (value : PyVal) : Except PyErr String :=
  if value = .none ∨ value = .str "" then .ok ""
  else
    match value with
    | .str s =>
      match strptimeMD s.data with
      | some (m, d) => .ok (fmtMD m d)
      | _ => .error (.volInvalid ("Invalid date: " ++ s))
    | _ => .error .typeError

/-- Attribute lookup in a restored-state attribute mapping
(`attributes.get(key)` with `PyVal.none` for a missing key). -/
def getAttr (attrs : List (String × PyVal)) (key : String) : PyVal :=
  match attrs.find? (fun p => p.1 = key) with
  | some p => p.2
  | _ => .none

/-- `attributes.get(key, default)`. -/
def getAttrD (attrs : List (String × PyVal)) (key : String) (dflt : PyVal) : PyVal :=
  match attrs.find? (fun p => p.1 = key) with
  | some p => p.2
  | _ => dflt

deriving instance DecidableEq for Except

/-- `helpers.parse_optional_datetime`: look the key up in the restored
attributes; a falsy value (missing, `None`, `""`, `0`, `False`) yields `None`
with no log; a truthy string is parsed with `datetime.fromisoformat`, a
`ValueError` being caught, logged at error level (the returned flag) and
recovered to `None`; a truthy non-string makes `fromisoformat` raise
`TypeError`, which the `except ValueError` clause does not catch. -/
def parse_optional_datetime (attributes : List (String × PyVal)) (key : String) :
    Except PyErr (Option DateTime × Bool) :=
  let v := getAttr attributes key
  if v.truthy then
    match v with
    | .str s =>
      match datetimeFromIso s with
      | some dt => .ok (some dt, false)
      | _ => .ok (Option.none, true)
    | _ => .error .typeError
  else .ok (Option.none, false)

/-- Modelled from the spec: `helpers.parse_optional_date` is invoked by
`Chore._restore_state` but its definition is not in the excerpted
`helpers.py`; per spec §4.2 it looks the key up in a restored-attribute
mapping, parses the value as a date, and returns absent — logging a warning
(the returned flag) — instead of failing whenever the stored value is missing
or malformed. -/
def parse_optional_date (attributes : List (String × PyVal)) (key : String) :
    Option Date × Bool :=
  match getAttr attributes key with
  | .str s =>
    if s = "" then (Option.none, true)
    else
      match dateFromIso s with
      | some d => (some d, false)
      | _ => (Option.none, true)
  | .pdate d => (some d, false)
  | _ => (Option.none, true)

/-- The wizard's/entity's configuration mapping (`config_entry.options`):
every key optionally present, per §3 of the spec. -/
structure ChoreConfig where
  name : Option String
  hidden : Option Bool
  manual : Option Bool
  frequency : Option String
  period : Option Nat
  date : Option String
  dayOfMonth : Option Int
  weekdayOrderNumber : Option Int
  forceWeekNumbers : Option Bool
  dueDateOffset : Option Int
  choreDay : Option String
  firstWeek : Option Nat
  firstMonth : Option String
  lastMonth : Option String
  startDate : Option PyVal
  iconNormal : Option String
  iconToday : Option String
  iconTomorrow : Option String
  iconOverdue : Option String
  dateFormat : Option String
  forecastDates : Option Int
  showOverdueToday : Option Bool
  offsetDates : Option String
  addDates : Option String
  removeDates : Option String
  user : Option String
  deriving DecidableEq, Repr

/-- A configuration with no key present. -/
def emptyChoreConfig : ChoreConfig :=
  ⟨Option.none, Option.none, Option.none, Option.none, Option.none, Option.none,
    Option.none, Option.none, Option.none, Option.none, Option.none, Option.none,
    Option.none, Option.none, Option.none, Option.none, Option.none, Option.none,
    Option.none, Option.none, Option.none, Option.none, Option.none, Option.none,
    Option.none, Option.none⟩

/-- Modelled from the spec: `const.MONTH_OPTIONS` (the `const.py` module is
not in the excerpt); §3/§4.1 give an enumerated list of the twelve month
names with defaults `"january"`/`"december"`. -/
def MONTH_OPTIONS : List String :=
  ["january", "february", "march", "april", "may", "june",
    "july", "august", "september", "october", "november", "december"]

/-- `Chore._get_month`: position of the month name in the options list plus
one, defaulting to 1 (January) when the name is not found. -/
def get_month (monthName : String) : Nat :=
  match MONTH_OPTIONS.findIdx? (· == monthName) with
  | some i => i + 1
  | _ => 1

/-- Per-day successor of a calendar date. -/
def Date.next (d : Date) : Date :=
  if d.day < daysInMonth d.year d.month then ⟨d.year, d.month, d.day + 1⟩
  else if d.month < 12 then ⟨d.year, d.month + 1, 1⟩
  else ⟨d.year + 1, 1, 1⟩

/-- Advance a date by `n` days. -/
def Date.addDays : Date → Nat → Date
  | d, 0 => d
  | d, n + 1 => d.next.addDays n

/-- Whether month `m` lies in the `[f, l]` season window, wrapping across the
year boundary when `f > l` (spec §3). -/
def monthInWindow (f l m : Nat) : Bool :=
  if f ≤ l then f ≤ m && m ≤ l else m ≥ f || m ≤ l

/-- First day of the month after `d`'s. -/
def firstOfNextMonth (d : Date) : Date :=
  if d.month < 12 then ⟨d.year, d.month + 1, 1⟩ else ⟨d.year + 1, 1, 1⟩

/-- Skip forward past any month outside the `[f, l]` season window
(spec §4.2 step 3), to the first day of the next in-window month; the fuel of
12 suffices since some month is always in the window. -/
def seasonAdjust (f l : Nat) : Nat → Date → Date
  | 0, d => d
  | fuel + 1, d =>
    if monthInWindow f l d.month then d else seasonAdjust f l fuel (firstOfNextMonth d)

/-- The daily frequency family (`const.DAILY_FREQUENCY`, per spec §3). -/
def DAILY_FREQUENCY : List String := ["daily", "every-n-days", "after-n-days"]

/-- Modelled from the spec: `helpers.calculate_next_due_date` is invoked by
`Chore.calculate_next_due_date` but its definition is not in the excerpted
`helpers.py`; per spec §4.2 it computes the next occurrence from the
configuration and the last completion: absent when `manual` is set; for the
daily family, the base date is `last_completed`'s date (or the configured
`start_date` when never completed), advanced by `period` days (1 for plain
`daily`) and then past any month outside the season window; absent when a
required detail field is missing.  The weekly/monthly/yearly recurrence
arithmetic is absent from the excerpted source (spec §9 lists it as an open
question) and is exercised by no claim, so those families — like the
blank/`manual` sentinel family, which includes the empty frequency string —
are not advanced here and yield absent. -/
def calculate_next_due_date (config : ChoreConfig) (lastCompleted : Option DateTime) :
    Option Date :=
  if config.manual.getD false then Option.none
  else if DAILY_FREQUENCY.contains (config.frequency.getD "") then
    let base : Option Date :=
      match lastCompleted with
      | some dt => some dt.date
      | _ =>
        match config.startDate with
        | some (.pdate d) => some d
        | some (.pdatetime dt) => some dt.date
        | some (.str s) => dateFromIso s
        | _ => Option.none
    let n : Option Nat :=
      if config.frequency.getD "" = "daily" then some 1 else config.period
    match base, n with
    | some b, some k =>
      let f := get_month (config.firstMonth.getD "january")
      let l := get_month (config.lastMonth.getD "december")
      some (seasonAdjust f l 12 (b.addDays k))
    | _, _ => Option.none
  else Option.none


/-- The `Chore` entity's mutable fields, as initialized by `Chore.__init__`
and mutated by its operations (`chore.py`).  Fields whose Python type varies
between construction and restoration (the restored attributes are untyped)
are carried as `PyVal`. -/
structure ChoreEntity where
  attrName : Option String
  hidden : Bool
  manual : Option Bool
  firstMonth : Nat
  lastMonth : Nat
  iconNormal : Option String
  iconToday : Option String
  iconTomorrow : Option String
  iconOverdue : Option String
  dateFormat : Option String
  forecastDates : Int
  showOverdueToday : Bool
  offsetDates : PyVal
  addDates : PyVal
  removeDates : PyVal
  dueDates : List Date
  nextDueDate : Option Date
  lastUpdated : Option DateTime
  lastCompleted : Option DateTime
  days : PyVal
  overdue : PyVal
  overdueDays : PyVal
  frequency : String
  attrState : PyVal
  attrIcon : Option String
  user : Option String
  startDate : Option PyVal
  deriving DecidableEq, Repr

/-- `Chore._get_start_date`: `helpers.to_date` with only `ValueError` caught
and recovered to `None`; any other exception (`TypeError` for a value of a
non-date, non-string type) propagates. -/
def get_start_date (startDateValue : PyVal) : Except PyErr (Option PyVal) :=
  match to_date startDateValue with
  | .ok r => .ok (some r)
  | .error .valueError => .ok Option.none
  | .error e => .error e

/-- `Chore.__init__`: resolve the display name (`config_entry.title or
config.get(CONF_NAME)`, the empty title being falsy), the hidden/manual
flags, the month window, icons and date settings, initialize every `ChoreState`
field to absent/zero/false — in particular `self._frequency = ""`, which no
statement of the constructor ever overwrites from the configuration — and
resolve the start date via `_get_start_date` (whose `TypeError` propagates
out of construction). -/
def choreInit (title : Option String) (config : ChoreConfig) :
    Except PyErr ChoreEntity :=
  match get_start_date (config.startDate.getD .none) with
  | .error e => .error e
  | .ok sd =>
    .ok
      { attrName := if (title.getD "") ≠ "" then title else config.name
        hidden := config.hidden.getD false
        manual := config.manual
        firstMonth := get_month (config.firstMonth.getD "january")
        lastMonth := get_month (config.lastMonth.getD "december")
        iconNormal := config.iconNormal
        iconToday := config.iconToday
        iconTomorrow := config.iconTomorrow
        iconOverdue := config.iconOverdue
        dateFormat := config.dateFormat
        forecastDates := config.forecastDates.getD 0
        showOverdueToday := config.showOverdueToday.getD false
        offsetDates := .str (config.offsetDates.getD "")
        addDates := .str (config.addDates.getD "")
        removeDates := .str (config.removeDates.getD "")
        dueDates := []
        nextDueDate := Option.none
        lastUpdated := Option.none
        lastCompleted := Option.none
        days := .none
        overdue := .bool false
        overdueDays := .none
        frequency := ""
        attrState := .none
        attrIcon := config.iconNormal
        user := Option.none
        startDate := sd }

/-- The slice of `hass.data[DOMAIN]` and of the host platform this
integration touches: the sensor platform's entity registry, the lazily
created Calendar Aggregator and its registry of entity identifiers, the
count of platform setups forwarded, and the log of platform state-writes. -/
structure Hass where
  sensorRegistry : List String
  calendarCreated : Bool
  calendarRegistry : List String
  forwardedSetups : Nat
  writeLog : List String
  deriving DecidableEq, Repr

/-- Modelled from the spec: `EntitiesCalendarData.add_entity` (`calendar.py`
is not in the excerpt); §4.3: registers an identifier, idempotently. -/
def add_entity (entityId : String) (registry : List String) : List String :=
  if registry.contains entityId then registry else registry ++ [entityId]

/-- Modelled from the spec: `EntitiesCalendarData.remove_entity`
(`calendar.py` is not in the excerpt); §4.3: deregisters an identifier,
removing an absent one being a no-op. -/
def remove_entity (entityId : String) (registry : List String) : List String :=
  registry.erase entityId

/-- `Chore._create_calendar_if_needed`: when the calendar platform is not yet
in `hass.data[DOMAIN]`, create the aggregator (an empty registry) and forward
the platform setup. -/
def create_calendar_if_needed (h : Hass) : Hass :=
  if h.calendarCreated then h
  else
    { h with
        calendarCreated := true
        calendarRegistry := []
        forwardedSetups := h.forwardedSetups + 1 }

/-- `Chore._add_to_calendar`: when the entity is not hidden, ensure the
calendar exists and register the entity identifier; a hidden entity does
nothing. -/
def add_to_calendar (e : ChoreEntity) (entityId : String) (h : Hass) : Hass :=
  if !e.hidden then
    let h' := create_calendar_if_needed h
    { h' with calendarRegistry := add_entity entityId h'.calendarRegistry }
  else h

/-- The body of `Chore._remove_from_calendar`: deregister the identifier from
the Calendar Aggregator. -/
def remove_from_calendar_body (entityId : String) (h : Hass) : Hass :=
  { h with calendarRegistry := remove_entity entityId h.calendarRegistry }

/-- Python semantics of calling an `async def` method without `await`: the
expression only creates a coroutine object, which is immediately discarded,
so the method body never executes and the state is unchanged. -/
def callAsyncWithoutAwait (_body : Hass → Hass) (h : Hass) : Hass := h

/-- `Chore._remove_from_registry`: `del hass.data[DOMAIN][SENSOR_PLATFORM][entity_id]`,
raising `KeyError` when the identifier is not registered. -/
def remove_from_registry (entityId : String) (h : Hass) : Except PyErr Hass :=
  if h.sensorRegistry.contains entityId then
    .ok { h with sensorRegistry := h.sensorRegistry.erase entityId }
  else .error .keyError

/-- A state snapshot handed back by the host platform's restore mechanism
(`async_get_last_state`): the serialized primary value and the attributes
mapping. -/
structure RestoredState where
  state : String
  attributes : List (String × PyVal)
  deriving DecidableEq, Repr

/-- `Chore._restore_state`: with no last state, do nothing; otherwise copy
the primary value, clear `last_updated`, and read `days`, `next_date`
(via `helpers.parse_optional_date`), `last_completed`
(via `helpers.parse_optional_datetime`), `overdue`, `overdue_days` and the
three override strings out of the restored attributes. -/
def restore_state (last : Option RestoredState) (e : ChoreEntity) :
    Except PyErr ChoreEntity :=
  match last with
  | Option.none => .ok e
  | some st =>
    match parse_optional_datetime st.attributes "last_completed" with
    | .error err => .error err
    | .ok (lc, _) =>
      .ok
        { e with
            attrState := .str st.state
            lastUpdated := Option.none
            days := getAttr st.attributes "days"
            nextDueDate := (parse_optional_date st.attributes "next_date").1
            lastCompleted := lc
            overdue := getAttrD st.attributes "overdue" (.bool false)
            overdueDays := getAttr st.attributes "overdue_days"
            offsetDates := getAttrD st.attributes "offset_dates" (.str "")
            addDates := getAttrD st.attributes "add_dates" (.str "")
            removeDates := getAttrD st.attributes "remove_dates" (.str "") }

/-- `Chore.async_added_to_hass`: restore the previous state, then (awaited)
`_add_to_calendar`. -/
def async_added_to_hass (last : Option RestoredState) (entityId : String)
    (s : ChoreEntity × Hass) : Except PyErr (ChoreEntity × Hass) :=
  match restore_state last s.1 with
  | .error err => .error err
  | .ok e' => .ok (e', add_to_calendar e' entityId s.2)

/-- `Chore.async_will_remove_from_hass`: `_remove_from_registry()`, then
`self._remove_from_calendar()` — written without `await` although
`_remove_from_calendar` is an `async def`, so only a coroutine object is
created and the deregistration body never runs. -/
def async_will_remove_from_hass (entityId : String) (h : Hass) :
    Except PyErr Hass :=
  match remove_from_registry entityId h with
  | .error err => .error err
  | .ok h' => .ok (callAsyncWithoutAwait (remove_from_calendar_body entityId) h')

/-- `Chore.update_state`: `async_write_ha_state()` (one platform state-write,
recorded on the write log) followed by stamping `last_updated` with the
current time. -/
def update_state (now : DateTime) (entityId : String) (s : ChoreEntity × Hass) :
    ChoreEntity × Hass :=
  ({ s.1 with lastUpdated := some now },
    { s.2 with writeLog := s.2.writeLog ++ [entityId] })

/-- `Chore.set_chore_completed`: `last_completed = completed_at or
datetime.now()` (the default current time `now1` is used when `completed_at`
is `None`), then `update_state()` (whose own current time is `now2`). -/
def set_chore_completed (completedAt : Option DateTime) (now1 now2 : DateTime)
    (entityId : String) (s : ChoreEntity × Hass) : ChoreEntity × Hass :=
  update_state now2 entityId ({ s.1 with lastCompleted := some (completedAt.getD now1) }, s.2)

/-- `Chore.assign_user`: set the assignee, then `update_state()`. -/
def assign_user (u : String) (now : DateTime) (entityId : String)
    (s : ChoreEntity × Hass) : ChoreEntity × Hass :=
  update_state now entityId ({ s.1 with user := some u }, s.2)

/-- `Chore.mark_overdue`: set the overdue flag and day count, then
`update_state()`. -/
def mark_overdue (o : Bool) (overdueDays : Int) (now : DateTime) (entityId : String)
    (s : ChoreEntity × Hass) : ChoreEntity × Hass :=
  update_state now entityId
    ({ s.1 with overdue := .bool o, overdueDays := .int overdueDays }, s.2)

/-- The configuration argument `Chore.calculate_next_due_date` actually
supplies to the helper: the call site passes only `self._frequency` (and
`self.last_completed`), so the computation receives no period, start date or
other detail field. -/
def configOnlyFrequency (f : String) : ChoreConfig :=
  { emptyChoreConfig with frequency := some f }

/-- `Chore.calculate_next_due_date`: store
`helpers.calculate_next_due_date(self._frequency, self.last_completed)` as
the next due date, then `update_state()`. -/
def chore_calculate_next_due_date (now : DateTime) (entityId : String)
    (s : ChoreEntity × Hass) : ChoreEntity × Hass :=
  update_state now entityId
    ({ s.1 with
        nextDueDate :=
          calculate_next_due_date (configOnlyFrequency s.1.frequency) s.1.lastCompleted },
      s.2)

/-- A post-startup operation on a chore entity (the completion, assignment,
overdue and recompute events of spec §4.4). -/
inductive ChoreOp where
  | complete (completedAt : Option DateTime) (now1 now2 : DateTime) : ChoreOp
  | assign (u : String) (now : DateTime) : ChoreOp
  | overdue (o : Bool) (days : Int) (now : DateTime) : ChoreOp
  | recompute (now : DateTime) : ChoreOp
  deriving Repr

/-- Apply one operation. -/
def runOp (entityId : String) (s : ChoreEntity × Hass) : ChoreOp → ChoreEntity × Hass
  | .complete c n1 n2 => set_chore_completed c n1 n2 entityId s
  | .assign u n => assign_user u n entityId s
  | .overdue o d n => mark_overdue o d n entityId s
  | .recompute n => chore_calculate_next_due_date n entityId s

/-- Apply a sequence of operations, oldest first. -/
def runOps (entityId : String) (s : ChoreEntity × Hass) : List ChoreOp → ChoreEntity × Hass
  | [] => s
  | op :: ops => runOps entityId (runOp entityId s op) ops

/-- The flow-level validation failure raised by `_validate_config`
(`SchemaFlowError`, carrying the error tag shown on the offending field). -/
inductive FlowErr where
  | schemaFlowError (tag : String) : FlowErr
  deriving DecidableEq, Repr

/-- The detail-step submission fields `_validate_config` inspects
(`config_flow.py`): a key absent from the submitted mapping is `Option.none`
(a normalization to Python `None` is likewise modelled as `Option.none`);
`weekday_order_number` is carried as the integer `int(...)` conversion the
code applies to it. -/
structure DetailData where
  dayOfMonth : Option Int
  date : Option String
  weekdayOrderNumber : Option Int
  choreDay : Option String
  user : Option String
  deriving DecidableEq, Repr

/-- `config_flow._validate_config`: `day_of_month` below 1 becomes absent;
a `date` equal to `"0"`, `"0/0"` or `""` becomes absent, and any other
present `date` is checked with `helpers.month_day_text`, a `vol.Invalid`
being re-raised as `SchemaFlowError("month_day")` (the normalized result is
discarded — the original string is kept); a `weekday_order_number` whose
integer value is 0 becomes absent; a `chore_day` equal to `"0"` becomes
absent; `user` is passed through unchanged. -/
def validate_config (data : DetailData) : Except FlowErr DetailData :=
  let dom : Option Int :=
    match data.dayOfMonth with
    | some n => if n < 1 then Option.none else some n
    | _ => Option.none
  let won : Option Int :=
    match data.weekdayOrderNumber with
    | some z => if z = 0 then Option.none else some z
    | _ => Option.none
  let cd : Option String :=
    match data.choreDay with
    | some s => if s = "0" then Option.none else some s
    | _ => Option.none
  match data.date with
  | some s =>
    if s = "0" ∨ s = "0/0" ∨ s = "" then
      .ok { data with dayOfMonth := dom, date := Option.none,
                      weekdayOrderNumber := won, choreDay := cd }
    else
      match month_day_text (.str s) with
      | .ok _ =>
        .ok { data with dayOfMonth := dom, weekdayOrderNumber := won, choreDay := cd }
      | .error _ => .error (.schemaFlowError "month_day")
  | _ => .ok { data with dayOfMonth := dom, weekdayOrderNumber := won, choreDay := cd }

/-- A concrete chore entity used by the witnesses: the result of constructing
a chore from a configuration that only sets the `hidden` flag. -/
def sampleEntity (hidden : Bool) : ChoreEntity :=
  { attrName := Option.none
    hidden := hidden
    manual := Option.none
    firstMonth := 1
    lastMonth := 12
    iconNormal := Option.none
    iconToday := Option.none
    iconTomorrow := Option.none
    iconOverdue := Option.none
    dateFormat := Option.none
    forecastDates := 0
    showOverdueToday := false
    offsetDates := .str ""
    addDates := .str ""
    removeDates := .str ""
    dueDates := []
    nextDueDate := Option.none
    lastUpdated := Option.none
    lastCompleted := Option.none
    days := .none
    overdue := .bool false
    overdueDays := .none
    frequency := ""
    attrState := .none
    attrIcon := Option.none
    user := Option.none
    startDate := Option.none }

/-- A host environment with empty registries. -/
def emptyHass : Hass :=
  { sensorRegistry := []
    calendarCreated := false
    calendarRegistry := []
    forwardedSetups := 0
    writeLog := [] }

/-- A concrete timestamp used by the witnesses. -/
def sampleNow : DateTime := ⟨⟨2024, 6, 1⟩, 12, 0, 0⟩

/-- Whether an exception belongs to the spec's `InvalidInput` error kind
(§7): a `ValueError` or a `vol.Invalid` validation failure — but not a
`TypeError` or `KeyError`. -/
def PyErr.isInvalidInput : PyErr → Bool
  | .valueError => true
  | .volInvalid _ => true
  | _ => false

/-- The configuration of testable property 11 of the spec: frequency
`every-n-days`, period 3, start date 2024-01-01, no other key present. -/
def c3Config : ChoreConfig :=
  { emptyChoreConfig with
      frequency := some "every-n-days"
      period := some 3
      startDate := some (.str "2024-01-01") }

/-- `Nat.digitChar` renders a value below ten as the matching decimal digit
character. -/
theorem digitChar_spec : ∀ n, n < 10 →
    (Nat.digitChar n).isDigit = true ∧ digitVal (Nat.digitChar n) = n := by
  decide

/-- Every month has at most 31 days. -/
theorem daysInMonth_le (y m : Nat) : daysInMonth y m ≤ 31 := by
  unfold daysInMonth
  split_ifs <;> omega

/-- The fixed-width ISO date parser inverts the zero-padded rendering of any
valid calendar date. -/
theorem dateFromIsoList_pad (y m dd : Nat) (hy1 : 1 ≤ y) (hy2 : y ≤ 9999)
    (hm1 : 1 ≤ m) (hm2 : m ≤ 12) (hd1 : 1 ≤ dd) (hd2 : dd ≤ daysInMonth y m) :
    dateFromIsoList (pad4 y ++ '-' :: pad2 m ++ '-' :: pad2 dd) = some ⟨y, m, dd⟩ := by
  obtain ⟨i1, v1⟩ := digitChar_spec _ (Nat.mod_lt (y / 1000) (by decide))
  obtain ⟨i2, v2⟩ := digitChar_spec _ (Nat.mod_lt (y / 100) (by decide))
  obtain ⟨i3, v3⟩ := digitChar_spec _ (Nat.mod_lt (y / 10) (by decide))
  obtain ⟨i4, v4⟩ := digitChar_spec _ (Nat.mod_lt y (by decide))
  obtain ⟨i5, v5⟩ := digitChar_spec _ (Nat.mod_lt (m / 10) (by decide))
  obtain ⟨i6, v6⟩ := digitChar_spec _ (Nat.mod_lt m (by decide))
  obtain ⟨i7, v7⟩ := digitChar_spec _ (Nat.mod_lt (dd / 10) (by decide))
  obtain ⟨i8, v8⟩ := digitChar_spec _ (Nat.mod_lt dd (by decide))
  have hdd : dd ≤ 31 := le_trans hd2 (daysInMonth_le y m)
  have ey : digitVal (Nat.digitChar (y / 1000 % 10)) * 1000 +
      digitVal (Nat.digitChar (y / 100 % 10)) * 100 +
      digitVal (Nat.digitChar (y / 10 % 10)) * 10 +
      digitVal (Nat.digitChar (y % 10)) = y := by
    rw [v1, v2, v3, v4]; omega
  have em : digitVal (Nat.digitChar (m / 10 % 10)) * 10 +
      digitVal (Nat.digitChar (m % 10)) = m := by
    rw [v5, v6]; omega
  have ed : digitVal (Nat.digitChar (dd / 10 % 10)) * 10 +
      digitVal (Nat.digitChar (dd % 10)) = dd := by
    rw [v7, v8]; omega
  have hv : Date.valid ⟨y, m, dd⟩ = true := by
    simp only [Date.valid, Bool.and_eq_true, decide_eq_true_eq]
    omega
  simp only [pad4, pad2, List.cons_append, List.nil_append, dateFromIsoList]
  rw [if_pos (by simp [i1, i2, i3, i4, i5, i6, i7, i8])]
  simp [ey, em, ed, hv]

/-- `to_date` inverts `isoformat` on every valid date. -/
theorem to_date_isoformat (d : Date) (h : d.valid = true) :
    to_date (.str d.isoformat) = .ok (.pdate d) := by
  obtain ⟨y, m, dd⟩ := d
  have hb : (1 ≤ y ∧ y ≤ 9999) ∧ (1 ≤ m ∧ m ≤ 12) ∧ 1 ≤ dd ∧ dd ≤ daysInMonth y m := by
    simpa [Date.valid, Bool.and_eq_true, decide_eq_true_eq, and_assoc] using h
  have hp := dateFromIsoList_pad y m dd hb.1.1 hb.1.2 hb.2.1.1 hb.2.1.2 hb.2.2.1 hb.2.2.2
  simp only [to_date, dateFromIso, Date.isoformat]
  rw [hp]

/-- The one-or-two-digit token parser accepts the zero-padded two-digit
rendering of any value below 100, leaving the remainder untouched. -/
theorem parseTok2_pad2 (n : Nat) (rest : List Char) :
    parseTok2 (pad2 n ++ rest) = some (n % 100, rest) := by
  obtain ⟨i1, v1⟩ := digitChar_spec _ (Nat.mod_lt (n / 10) (by decide))
  obtain ⟨i2, v2⟩ := digitChar_spec _ (Nat.mod_lt n (by decide))
  simp only [pad2, List.cons_append, List.nil_append, parseTok2, i1, i2, if_true, v1, v2]
  have : n / 10 % 10 * 10 + n % 10 = n % 100 := by omega
  rw [this]

/-- `strptime("%H:%M")` accepts the zero-padded rendering of any in-range
time of day. -/
theorem strptimeHM_pad (h m : Nat) (hh : h ≤ 23) (hm : m ≤ 59) :
    strptimeHM (pad2 h ++ ':' :: pad2 m) = some (h, m) := by
  have p1 := parseTok2_pad2 h (':' :: pad2 m)
  have p2 := parseTok2_pad2 m []
  rw [Nat.mod_eq_of_lt (by omega)] at p1
  rw [Nat.mod_eq_of_lt (by omega), List.append_nil] at p2
  simp [strptimeHM, p1, p2, hh, hm]

/-- `strptime("%m/%d")` (with its year-1900 day validation) accepts the
zero-padded rendering of any month/day pair valid in 1900. -/
theorem strptimeMD_pad (m d : Nat) (hm1 : 1 ≤ m) (hm2 : m ≤ 12) (hd1 : 1 ≤ d)
    (hd2 : d ≤ daysInMonth 1900 m) :
    strptimeMD (pad2 m ++ '/' :: pad2 d) = some (m, d) := by
  have hd31 : d ≤ 31 := le_trans hd2 (daysInMonth_le 1900 m)
  have p1 := parseTok2_pad2 m ('/' :: pad2 d)
  have p2 := parseTok2_pad2 d []
  rw [Nat.mod_eq_of_lt (by omega)] at p1
  rw [Nat.mod_eq_of_lt (by omega), List.append_nil] at p2
  simp [strptimeMD, p1, p2, hm1, hm2, hd1, hd2]

/-- Any hour/minute pair produced by `strptime("%H:%M")` is in range. -/
theorem strptimeHM_bounds {cs : List Char} {h m : Nat}
    (hs : strptimeHM cs = some (h, m)) : h ≤ 23 ∧ m ≤ 59 := by
  unfold strptimeHM at hs
  split at hs
  · next h' rest _ =>
    split at hs
    · split at hs
      · next heq2 =>
        split at hs
        · exact ⟨by injection hs with h1; cases h1; assumption,
            by injection hs with h1; cases h1; assumption⟩
        · exact absurd hs (by simp)
      · exact absurd hs (by simp)
    · exact absurd hs (by simp)
  · exact absurd hs (by simp)

/-- Any month/day pair produced by `strptime("%m/%d")` is in range for the
default year 1900. -/
theorem strptimeMD_bounds {cs : List Char} {m d : Nat}
    (hs : strptimeMD cs = some (m, d)) :
    1 ≤ m ∧ m ≤ 12 ∧ 1 ≤ d ∧ d ≤ daysInMonth 1900 m := by
  unfold strptimeMD at hs
  split at hs
  · next m' rest _ =>
    split at hs
    · split at hs
      · next heq2 =>
        split at hs
        · injection hs with h1
          cases h1
          omega
        · exact absurd hs (by simp)
      · exact absurd hs (by simp)
    · exact absurd hs (by simp)
  · exact absurd hs (by simp)

/-- A rendered `HH:MM` string is never empty. -/
theorem fmtHM_ne_empty (h m : Nat) : fmtHM h m ≠ "" := by
  intro hc
  have : (fmtHM h m).data = ("" : String).data := by rw [hc]
  simp [fmtHM, pad2] at this

/-- A rendered `MM/DD` string is never empty. -/
theorem fmtMD_ne_empty (m d : Nat) : fmtMD m d ≠ "" := by
  intro hc
  have : (fmtMD m d).data = ("" : String).data := by rw [hc]
  simp [fmtMD, pad2] at this

/-- `time_text` accepts and fixes the zero-padded rendering of every in-range
time of day. -/
theorem time_text_pad (h m : Nat) (hh : h ≤ 23) (hm : m ≤ 59) :
    time_text (.str (fmtHM h m)) = .ok (fmtHM h m) := by
  have hp := strptimeHM_pad h m hh hm
  unfold time_text
  rw [if_neg (by simp [fmtHM_ne_empty h m])]
  show (match strptimeHM (fmtHM h m).data with
    | some (h', m') => Except.ok (fmtHM h' m')
    | _ => Except.error (PyErr.volInvalid ("Invalid date: " ++ fmtHM h m))) = .ok (fmtHM h m)
  rw [show (fmtHM h m).data = pad2 h ++ ':' :: pad2 m from rfl, hp]

/-- `month_day_text` accepts and fixes the zero-padded rendering of every
month/day pair valid in year 1900. -/
theorem month_day_text_pad (m d : Nat) (hm1 : 1 ≤ m) (hm2 : m ≤ 12) (hd1 : 1 ≤ d)
    (hd2 : d ≤ daysInMonth 1900 m) :
    month_day_text (.str (fmtMD m d)) = .ok (fmtMD m d) := by
  have hp := strptimeMD_pad m d hm1 hm2 hd1 hd2
  unfold month_day_text
  rw [if_neg (by simp [fmtMD_ne_empty m d])]
  show (match strptimeMD (fmtMD m d).data with
    | some (m', d') => Except.ok (fmtMD m' d')
    | _ => Except.error (PyErr.volInvalid ("Invalid date: " ++ fmtMD m d))) = .ok (fmtMD m d)
  rw [show (fmtMD m d).data = pad2 m ++ '/' :: pad2 d from rfl, hp]

/-- Every success of `time_text` on a string is the empty string or a
normalized in-range `HH:MM` rendering. -/
theorem time_text_ok_shape (s t : String) (hok : time_text (.str s) = .ok t) :
    t = "" ∨ ∃ h m, h ≤ 23 ∧ m ≤ 59 ∧ t = fmtHM h m := by
  by_cases hs : s = ""
  · subst hs
    simp [time_text] at hok
    exact Or.inl hok.symm
  · unfold time_text at hok
    rw [if_neg (by simp [hs])] at hok
    have hok' : (match strptimeHM s.data with
      | some (h', m') => Except.ok (fmtHM h' m')
      | _ => Except.error (PyErr.volInvalid ("Invalid date: " ++ s))) =
        (Except.ok t : Except PyErr String) := hok
    cases he : strptimeHM s.data with
    | none =>
      rw [he] at hok'
      exact absurd hok' (by simp)
    | some p =>
      obtain ⟨h, m⟩ := p
      obtain ⟨hb1, hb2⟩ := strptimeHM_bounds he
      rw [he] at hok'
      refine Or.inr ⟨h, m, hb1, hb2, ?_⟩
      injection hok' with hok'
      exact hok'.symm

/-- Every success of `month_day_text` on a string is the empty string or a
normalized in-range `MM/DD` rendering. -/
theorem month_day_text_ok_shape (s t : String) (hok : month_day_text (.str s) = .ok t) :
    t = "" ∨ ∃ m d, 1 ≤ m ∧ m ≤ 12 ∧ 1 ≤ d ∧ d ≤ daysInMonth 1900 m ∧ t = fmtMD m d := by
  by_cases hs : s = ""
  · subst hs
    simp [month_day_text] at hok
    exact Or.inl hok.symm
  · unfold month_day_text at hok
    rw [if_neg (by simp [hs])] at hok
    have hok' : (match strptimeMD s.data with
      | some (m', d') => Except.ok (fmtMD m' d')
      | _ => Except.error (PyErr.volInvalid ("Invalid date: " ++ s))) =
        (Except.ok t : Except PyErr String) := hok
    cases he : strptimeMD s.data with
    | none =>
      rw [he] at hok'
      exact absurd hok' (by simp)
    | some p =>
      obtain ⟨m, d⟩ := p
      obtain ⟨hb1, hb2, hb3, hb4⟩ := strptimeMD_bounds he
      rw [he] at hok'
      refine Or.inr ⟨m, d, hb1, hb2, hb3, hb4, ?_⟩
      injection hok' with hok'
      exact hok'.symm

/-- On a nonempty string, `time_text` either succeeds or fails with a
`vol.Invalid` whose message embeds the offending value. -/
theorem time_text_fail_msg (s : String) (hs : s ≠ "") :
    (∃ t, time_text (.str s) = .ok t) ∨
      time_text (.str s) = .error (.volInvalid ("Invalid date: " ++ s)) := by
  unfold time_text
  rw [if_neg (by simp [hs])]
  show (∃ t, (match strptimeHM s.data with
      | some (h', m') => Except.ok (fmtHM h' m')
      | _ => Except.error (PyErr.volInvalid ("Invalid date: " ++ s))) = .ok t) ∨
    (match strptimeHM s.data with
      | some (h', m') => Except.ok (fmtHM h' m')
      | _ => Except.error (PyErr.volInvalid ("Invalid date: " ++ s))) =
      .error (.volInvalid ("Invalid date: " ++ s))
  cases he : strptimeHM s.data with
  | none => exact Or.inr rfl
  | some p => exact Or.inl ⟨fmtHM p.1 p.2, rfl⟩

/-- On a nonempty string, `month_day_text` either succeeds or fails with a
`vol.Invalid` whose message embeds the offending value. -/
theorem month_day_text_fail_msg (s : String) (hs : s ≠ "") :
    (∃ t, month_day_text (.str s) = .ok t) ∨
      month_day_text (.str s) = .error (.volInvalid ("Invalid date: " ++ s)) := by
  unfold month_day_text
  rw [if_neg (by simp [hs])]
  show (∃ t, (match strptimeMD s.data with
      | some (m', d') => Except.ok (fmtMD m' d')
      | _ => Except.error (PyErr.volInvalid ("Invalid date: " ++ s))) = .ok t) ∨
    (match strptimeMD s.data with
      | some (m', d') => Except.ok (fmtMD m' d')
      | _ => Except.error (PyErr.volInvalid ("Invalid date: " ++ s))) =
      .error (.volInvalid ("Invalid date: " ++ s))
  cases he : strptimeMD s.data with
  | none => exact Or.inr rfl
  | some p => exact Or.inl ⟨fmtMD p.1 p.2, rfl⟩

/-- `time_text` raises `TypeError` on any non-`None`, non-string value. -/
theorem time_text_nonstr (v : PyVal) (hv : v ≠ .none) (hvs : ∀ s, v ≠ .str s) :
    time_text v = .error .typeError := by
  cases v with
  | none => exact absurd rfl hv
  | str s => exact absurd rfl (hvs s)
  | pdate d => rfl
  | pdatetime dt => rfl
  | int z => rfl
  | bool b => rfl

/-- `month_day_text` raises `TypeError` on any non-`None`, non-string value. -/
theorem month_day_text_nonstr (v : PyVal) (hv : v ≠ .none) (hvs : ∀ s, v ≠ .str s) :
    month_day_text v = .error .typeError := by
  cases v with
  | none => exact absurd rfl hv
  | str s => exact absurd rfl (hvs s)
  | pdate d => rfl
  | pdatetime dt => rfl
  | int z => rfl
  | bool b => rfl

/-- On a nonempty string, `month_day_text` fails exactly when the `"%m/%d"`
parse fails. -/
theorem month_day_text_err_iff (s : String) (hs : s ≠ "") :
    (∃ e, month_day_text (.str s) = .error e) ↔ strptimeMD s.data = Option.none := by
  unfold month_day_text
  rw [if_neg (by simp [hs])]
  show (∃ e, (match strptimeMD s.data with
      | some (m', d') => Except.ok (fmtMD m' d')
      | _ => Except.error (PyErr.volInvalid ("Invalid date: " ++ s))) = .error e) ↔ _
  cases he : strptimeMD s.data with
  | none => simp
  | some p => simp

/-- The token parser accepts a one- or two-digit field followed by a
non-digit (or nothing), leaving the remainder untouched. -/
theorem parseTok2_isTok {t : List Char} {v : Nat} (ht : isTok t v)
    (rest : List Char)
    (hrest : rest = [] ∨ ∃ c rs, rest = c :: rs ∧ c.isDigit = false) :
    parseTok2 (t ++ rest) = some (v, rest) := by
  rcases ht with ⟨c, rfl, hc, rfl⟩ | ⟨c1, c2, rfl, hc1, hc2, rfl⟩
  · rcases hrest with rfl | ⟨c', rs, rfl, hc'⟩
    · simp [parseTok2, hc]
    · simp [parseTok2, hc, hc']
  · simp [parseTok2, hc1, hc2]

/-- Every token-parser success splits its input into a one- or two-digit
field and the remainder. -/
theorem parseTok2_split {cs : List Char} {v : Nat} {rest : List Char}
    (h : parseTok2 cs = some (v, rest)) : ∃ t, cs = t ++ rest ∧ isTok t v := by
  cases cs with
  | nil => exact absurd h (by simp [parseTok2])
  | cons c1 rest1 =>
    cases rest1 with
    | nil =>
      simp only [parseTok2] at h
      by_cases hc1 : c1.isDigit
      · rw [if_pos hc1] at h
        obtain ⟨rfl, rfl⟩ : digitVal c1 = v ∧ [] = rest := by simpa using h
        exact ⟨[c1], by simp, Or.inl ⟨c1, rfl, hc1, rfl⟩⟩
      · rw [if_neg hc1] at h
        exact absurd h (by simp)
    | cons c2 rest2 =>
      simp only [parseTok2] at h
      by_cases hc1 : c1.isDigit
      · rw [if_pos hc1] at h
        by_cases hc2 : c2.isDigit
        · rw [if_pos hc2] at h
          obtain ⟨rfl, rfl⟩ : digitVal c1 * 10 + digitVal c2 = v ∧ rest2 = rest := by
            simpa using h
          exact ⟨[c1, c2], rfl, Or.inr ⟨c1, c2, rfl, hc1, hc2, rfl⟩⟩
        · rw [if_neg hc2] at h
          obtain ⟨rfl, rfl⟩ : digitVal c1 = v ∧ c2 :: rest2 = rest := by simpa using h
          exact ⟨[c1], rfl, Or.inl ⟨c1, rfl, hc1, rfl⟩⟩
      · rw [if_neg hc1] at h
        exact absurd h (by simp)

/-- A string matching `"%H:%M"` is accepted by the embedded `strptime`, with
exactly the described values. -/
theorem matchesHM_parse {s : String} {h m : Nat} (hm : matchesHM s h m) :
    strptimeHM s.data = some (h, m) := by
  obtain ⟨t1, t2, hsplit, ht1, ht2, hb1, hb2⟩ := hm
  have hp1 := parseTok2_isTok ht1 (':' :: t2) (Or.inr ⟨':', t2, rfl, by decide⟩)
  have hp2 := parseTok2_isTok ht2 [] (Or.inl rfl)
  rw [List.append_nil] at hp2
  rw [hsplit]
  simp [strptimeHM, hp1, hp2, hb1, hb2]

/-- A string matching `"%m/%d"` is accepted by the embedded `strptime`, with
exactly the described values. -/
theorem matchesMD_parse {s : String} {m d : Nat} (hm : matchesMD s m d) :
    strptimeMD s.data = some (m, d) := by
  obtain ⟨t1, t2, hsplit, ht1, ht2, hb1, hb2, hb3, hb4⟩ := hm
  have hp1 := parseTok2_isTok ht1 ('/' :: t2) (Or.inr ⟨'/', t2, rfl, by decide⟩)
  have hp2 := parseTok2_isTok ht2 [] (Or.inl rfl)
  rw [List.append_nil] at hp2
  rw [hsplit]
  simp [strptimeMD, hp1, hp2, hb1, hb2, hb3, hb4]

/-- Every `strptime("%H:%M")` success comes from a matching string. -/
theorem parse_matchesHM {s : String} {h m : Nat}
    (he : strptimeHM s.data = some (h, m)) : matchesHM s h m := by
  unfold strptimeHM at he
  split at he
  · next h' rest heq =>
    split at he
    · next hh =>
      split at he
      · next m' heq2 =>
        split at he
        · next hm' =>
          obtain ⟨rfl, rfl⟩ : h' = h ∧ m' = m := by simpa using he
          obtain ⟨t1, hs1, ht1⟩ := parseTok2_split heq
          obtain ⟨t2, hs2, ht2⟩ := parseTok2_split heq2
          rw [List.append_nil] at hs2
          exact ⟨t1, t2, by rw [hs1, hs2], ht1, ht2, hh, hm'⟩
        · exact absurd he (by simp)
      · exact absurd he (by simp)
    · exact absurd he (by simp)
  · exact absurd he (by simp)

/-- Every `strptime("%m/%d")` success comes from a matching string. -/
theorem parse_matchesMD {s : String} {m d : Nat}
    (he : strptimeMD s.data = some (m, d)) : matchesMD s m d := by
  unfold strptimeMD at he
  split at he
  · next m' rest heq =>
    split at he
    · next hmr =>
      split at he
      · next d' heq2 =>
        split at he
        · next hdr =>
          obtain ⟨rfl, rfl⟩ : m' = m ∧ d' = d := by simpa using he
          obtain ⟨t1, hs1, ht1⟩ := parseTok2_split heq
          obtain ⟨t2, hs2, ht2⟩ := parseTok2_split heq2
          rw [List.append_nil] at hs2
          exact ⟨t1, t2, by rw [hs1, hs2], ht1, ht2, hmr.1, hmr.2, hdr.1, hdr.2⟩
        · exact absurd he (by simp)
      · exact absurd he (by simp)
    · exact absurd he (by simp)
  · exact absurd he (by simp)

/-- A string matching `"%H:%M"` is nonempty. -/
theorem matchesHM_ne_empty {s : String} {h m : Nat} (hm : matchesHM s h m) :
    s ≠ "" := by
  obtain ⟨t1, t2, hsplit, _⟩ := hm
  intro hc
  rw [hc] at hsplit
  cases t1 <;> simp at hsplit

/-- A string matching `"%m/%d"` is nonempty. -/
theorem matchesMD_ne_empty {s : String} {m d : Nat} (hm : matchesMD s m d) :
    s ≠ "" := by
  obtain ⟨t1, t2, hsplit, _⟩ := hm
  intro hc
  rw [hc] at hsplit
  cases t1 <;> simp at hsplit

/-- `time_text` accepts every string matching the `"%H:%M"` format — in any
one- or two-digit spelling — and returns the zero-padded normalization. -/
theorem time_text_matches_ok (s : String) (h m : Nat) (hm : matchesHM s h m) :
    time_text (.str s) = .ok (fmtHM h m) := by
  have hp := matchesHM_parse hm
  have hne := matchesHM_ne_empty hm
  unfold time_text
  rw [if_neg (by simp [hne])]
  show (match strptimeHM s.data with
    | some (h', m') => Except.ok (fmtHM h' m')
    | _ => Except.error (PyErr.volInvalid ("Invalid date: " ++ s))) = .ok (fmtHM h m)
  rw [hp]

/-- `time_text` rejects every nonempty string matching no `"%H:%M"` reading,
with a `vol.Invalid` embedding the offending value. -/
theorem time_text_nomatch_err (s : String) (hs : s ≠ "")
    (hnm : ∀ h m, ¬ matchesHM s h m) :
    time_text (.str s) = .error (.volInvalid ("Invalid date: " ++ s)) := by
  unfold time_text
  rw [if_neg (by simp [hs])]
  show (match strptimeHM s.data with
    | some (h', m') => Except.ok (fmtHM h' m')
    | _ => Except.error (PyErr.volInvalid ("Invalid date: " ++ s))) = _
  cases he : strptimeHM s.data with
  | none => rfl
  | some p => exact absurd (parse_matchesHM (by rw [he])) (hnm p.1 p.2)

/-- `month_day_text` accepts every string matching the `"%m/%d"` format — in
any one- or two-digit spelling — and returns the zero-padded
normalization. -/
theorem month_day_text_matches_ok (s : String) (m d : Nat) (hm : matchesMD s m d) :
    month_day_text (.str s) = .ok (fmtMD m d) := by
  have hp := matchesMD_parse hm
  have hne := matchesMD_ne_empty hm
  unfold month_day_text
  rw [if_neg (by simp [hne])]
  show (match strptimeMD s.data with
    | some (m', d') => Except.ok (fmtMD m' d')
    | _ => Except.error (PyErr.volInvalid ("Invalid date: " ++ s))) = .ok (fmtMD m d)
  rw [hp]

/-- `month_day_text` rejects every nonempty string matching no `"%m/%d"`
reading, with a `vol.Invalid` embedding the offending value. -/
theorem month_day_text_nomatch_err (s : String) (hs : s ≠ "")
    (hnm : ∀ m d, ¬ matchesMD s m d) :
    month_day_text (.str s) = .error (.volInvalid ("Invalid date: " ++ s)) := by
  unfold month_day_text
  rw [if_neg (by simp [hs])]
  show (match strptimeMD s.data with
    | some (m', d') => Except.ok (fmtMD m' d')
    | _ => Except.error (PyErr.volInvalid ("Invalid date: " ++ s))) = _
  cases he : strptimeMD s.data with
  | none => rfl
  | some p => exact absurd (parse_matchesMD (by rw [he])) (hnm p.1 p.2)

/-- C7 (counterexample): the claimed contract says any input other than
absent values, empty strings and format-matching strings fails with InvalidInput, but passing the
integer 5 makes `strptime` raise `TypeError`, which is not of the
InvalidInput kind. -/
theorem C7_counterexample :
    time_text (.int 5) = .error .typeError ∧
      PyErr.isInvalidInput .typeError = false := by
  exact ⟨rfl, rfl⟩

/-- C7 (amended): `time_text` and `month_day_text` share this contract:
absent or empty-string input returns the empty string; every string matching
the expected format — fields of one or two digits with in-range values
(hour 0-23 and minute 0-59, resp. a month/day pair valid in year 1900) — is
accepted and returns the zero-padded normalized string; every nonempty
string matching no such reading fails with `vol.Invalid` embedding the
offending value in the message; a non-string, non-absent input raises
`TypeError` instead; and in particular `month_day_text("02/30")` fails with
InvalidInput while `month_day_text("02/28")` returns `"02/28"`. -/
theorem C7_text_contract :
    (time_text .none = .ok "" ∧ time_text (.str "") = .ok "") ∧
    (∀ s h m, matchesHM s h m → time_text (.str s) = .ok (fmtHM h m)) ∧
    (∀ s, s ≠ "" → (∀ h m, ¬ matchesHM s h m) →
      time_text (.str s) = .error (.volInvalid ("Invalid date: " ++ s))) ∧
    (∀ s t, time_text (.str s) = .ok t →
      t = "" ∨ ∃ h m, h ≤ 23 ∧ m ≤ 59 ∧ t = fmtHM h m) ∧
    (∀ v : PyVal, v ≠ .none → (∀ s, v ≠ .str s) → time_text v = .error .typeError) ∧
    (month_day_text .none = .ok "" ∧ month_day_text (.str "") = .ok "") ∧
    (∀ s m d, matchesMD s m d → month_day_text (.str s) = .ok (fmtMD m d)) ∧
    (∀ s, s ≠ "" → (∀ m d, ¬ matchesMD s m d) →
      month_day_text (.str s) = .error (.volInvalid ("Invalid date: " ++ s))) ∧
    (∀ s t, month_day_text (.str s) = .ok t →
      t = "" ∨ ∃ m d, 1 ≤ m ∧ m ≤ 12 ∧ 1 ≤ d ∧ d ≤ daysInMonth 1900 m ∧ t = fmtMD m d) ∧
    (∀ v : PyVal, v ≠ .none → (∀ s, v ≠ .str s) → month_day_text v = .error .typeError) ∧
    (month_day_text (.str "02/30") = .error (.volInvalid "Invalid date: 02/30") ∧
      month_day_text (.str "02/28") = .ok "02/28") :=
  ⟨⟨rfl, rfl⟩, time_text_matches_ok, time_text_nomatch_err, time_text_ok_shape,
    time_text_nonstr, ⟨rfl, rfl⟩, month_day_text_matches_ok, month_day_text_nomatch_err,
    month_day_text_ok_shape, month_day_text_nonstr, by decide, by decide⟩

/-- C7 (witness): the contract applied at concrete inputs — a one-digit-hour
spelling is accepted and zero-padded, a non-matching string fails with the
embedded-value message, and a non-string input raises `TypeError`. -/
theorem C7_text_contract_witness :
    time_text (.str "9:05") = .ok (fmtHM 9 5) ∧
    time_text (.str "zz") = .error (.volInvalid "Invalid date: zz") ∧
    month_day_text (.int 0) = .error .typeError :=
  ⟨C7_text_contract.2.1 "9:05" 9 5
      ⟨['9'], ['0', '5'], by decide, Or.inl ⟨'9', rfl, by decide, by decide⟩,
        Or.inr ⟨'0', '5', rfl, by decide, by decide, by decide⟩, by decide, by decide⟩,
    C7_text_contract.2.2.1 "zz" (by decide)
      (fun h m hm => by
        have h1 := matchesHM_parse hm
        have h2 : strptimeHM ("zz" : String).data = Option.none := by decide
        rw [h2] at h1
        exact absurd h1 (by simp)),
    C7_text_contract.2.2.2.2.2.2.2.2.2.1 (.int 0) (by decide) (fun s => by simp)⟩

/-- C8 (counterexample): `to_date` does not take the date component of a
datetime — because `datetime` is a subclass of `date`, the `isinstance(day,
date)` branch returns the datetime unchanged. -/
theorem C8_counterexample :
    to_date (.pdatetime ⟨⟨2024, 1, 1⟩, 5, 30, 0⟩) =
        .ok (.pdatetime ⟨⟨2024, 1, 1⟩, 5, 30, 0⟩) ∧
      to_date (.pdatetime ⟨⟨2024, 1, 1⟩, 5, 30, 0⟩) ≠ .ok (.pdate ⟨2024, 1, 1⟩) := by
  exact ⟨rfl, by decide⟩

/-- C8 (amended): `to_date` round-trips with ISO-8601 formatting on every
valid date, is the identity on date values, returns datetime values
*unchanged* (the datetime branch is shadowed by the date branch), and fails
with InvalidInput (`ValueError`) on absent input. -/
theorem C8_to_date_roundtrip :
    (∀ d : Date, d.valid = true → to_date (.str d.isoformat) = .ok (.pdate d)) ∧
    (∀ d : Date, to_date (.pdate d) = .ok (.pdate d)) ∧
    (∀ dt : DateTime, to_date (.pdatetime dt) = .ok (.pdatetime dt)) ∧
    to_date .none = .error .valueError ∧
    PyErr.isInvalidInput .valueError = true :=
  ⟨to_date_isoformat, fun _ => rfl, fun _ => rfl, rfl, rfl⟩

/-- C8 (witness): the round trip at a concrete leap-day date. -/
theorem C8_to_date_roundtrip_witness :
    to_date (.str (Date.isoformat ⟨2024, 2, 29⟩)) = .ok (.pdate ⟨2024, 2, 29⟩) :=
  C8_to_date_roundtrip.1 ⟨2024, 2, 29⟩ (by decide)

/-- C10: `month_day_text("02/29")` fails with InvalidInput although 02/29
exists in leap years, because the `"%m/%d"` parse is anchored at `strptime`'s
fixed default year 1900, which is not a leap year; and every month/day pair
valid in that non-leap year is accepted and returned zero-padded. -/
theorem C10_month_day_nonleap_anchor :
    month_day_text (.str "02/29") = .error (.volInvalid "Invalid date: 02/29") ∧
    isLeapYear 1900 = false ∧ daysInMonth 1900 2 = 28 ∧
    isLeapYear 2024 = true ∧ daysInMonth 2024 2 = 29 ∧
    ∀ m d : Nat, 1 ≤ m → m ≤ 12 → 1 ≤ d → d ≤ daysInMonth 1900 m →
      month_day_text (.str (fmtMD m d)) = .ok (fmtMD m d) :=
  ⟨by decide, rfl, rfl, rfl, rfl, month_day_text_pad⟩

/-- C10 (witness): the acceptance clause at a concrete pair. -/
theorem C10_month_day_nonleap_anchor_witness :
    month_day_text (.str (fmtMD 12 31)) = .ok (fmtMD 12 31) :=
  C10_month_day_nonleap_anchor.2.2.2.2.2 12 31 (by decide) (by decide) (by decide) (by decide)

/-- C5 (counterexample): a start date of a non-string, non-date type makes
`date.fromisoformat` raise `TypeError`, which `_get_start_date`'s
`except ValueError` does not catch — it is not recovered to absent. -/
theorem C5_counterexample :
    get_start_date (.int 0) = .error .typeError ∧
      get_start_date (.int 0) ≠ .ok Option.none := by
  exact ⟨rfl, by decide⟩

/-- C5 (amended): `_get_start_date` returns the parsed value for a date, a
datetime (returned unchanged) or a string (the parse result, absent when the
string is unparseable), and returns absent for an absent value — but a start
date of any other type raises `TypeError`, which also propagates out of
`Chore.__init__`, so construction does fail on such a value. -/
theorem C5_get_start_date :
    (get_start_date .none = .ok Option.none) ∧
    (∀ d, get_start_date (.pdate d) = .ok (some (.pdate d))) ∧
    (∀ dt, get_start_date (.pdatetime dt) = .ok (some (.pdatetime dt))) ∧
    (∀ s, get_start_date (.str s) = .ok ((dateFromIso s).map PyVal.pdate)) ∧
    (∀ z, get_start_date (.int z) = .error .typeError) ∧
    (∀ b, get_start_date (.bool b) = .error .typeError) ∧
    (∀ (cfg : ChoreConfig) (z : Int) (t : Option String),
      cfg.startDate = some (.int z) → choreInit t cfg = .error .typeError) := by
  refine ⟨rfl, fun d => rfl, fun dt => rfl, ?_, fun z => rfl, fun b => rfl, ?_⟩
  · intro s
    have hts : to_date (.str s) = (match dateFromIso s with
      | some d => Except.ok (PyVal.pdate d)
      | _ => Except.error PyErr.valueError) := rfl
    unfold get_start_date
    rw [hts]
    cases he : dateFromIso s with
    | none => rfl
    | some d => rfl
  · intro cfg z t hz
    unfold choreInit
    rw [hz]
    rfl

/-- C5 (witness): the amended contract at concrete inputs. -/
theorem C5_get_start_date_witness :
    get_start_date (.str "2024-01-10") = .ok ((dateFromIso "2024-01-10").map PyVal.pdate) ∧
    choreInit Option.none { emptyChoreConfig with startDate := some (.int 7) } =
      .error .typeError :=
  ⟨C5_get_start_date.2.2.2.1 "2024-01-10",
    C5_get_start_date.2.2.2.2.2.2 { emptyChoreConfig with startDate := some (.int 7) }
      7 Option.none rfl⟩

/-- C9: `set_chore_completed` records the given completion timestamp
(defaulting to the current time), appends exactly one platform state-write,
stamps `last_updated` with the current time, and changes nothing else:
neither the schedule (`next_due_date`, `due_dates`, `days`) nor the overdue
fields, assignee, override strings, hidden flag, nor any registry. -/
theorem C9_set_chore_completed_frame (e : ChoreEntity) (h : Hass)
    (c : Option DateTime) (now1 now2 : DateTime) (entityId : String) :
    (set_chore_completed c now1 now2 entityId (e, h)).1.lastCompleted = some (c.getD now1) ∧
    (set_chore_completed c now1 now2 entityId (e, h)).1.lastUpdated = some now2 ∧
    (set_chore_completed c now1 now2 entityId (e, h)).2.writeLog = h.writeLog ++ [entityId] ∧
    (set_chore_completed c now1 now2 entityId (e, h)).2 =
      { h with writeLog := h.writeLog ++ [entityId] } ∧
    (set_chore_completed c now1 now2 entityId (e, h)).1.nextDueDate = e.nextDueDate ∧
    (set_chore_completed c now1 now2 entityId (e, h)).1.dueDates = e.dueDates ∧
    (set_chore_completed c now1 now2 entityId (e, h)).1.days = e.days ∧
    (set_chore_completed c now1 now2 entityId (e, h)).1.overdue = e.overdue ∧
    (set_chore_completed c now1 now2 entityId (e, h)).1.overdueDays = e.overdueDays ∧
    (set_chore_completed c now1 now2 entityId (e, h)).1.user = e.user ∧
    (set_chore_completed c now1 now2 entityId (e, h)).1.offsetDates = e.offsetDates ∧
    (set_chore_completed c now1 now2 entityId (e, h)).1.addDates = e.addDates ∧
    (set_chore_completed c now1 now2 entityId (e, h)).1.removeDates = e.removeDates ∧
    (set_chore_completed c now1 now2 entityId (e, h)).1.hidden = e.hidden :=
  ⟨rfl, rfl, rfl, rfl, rfl, rfl, rfl, rfl, rfl, rfl, rfl, rfl, rfl, rfl⟩

/-- Restoring state never changes the hidden flag. -/
theorem restore_state_ok_hidden {snap : Option RestoredState} {e e' : ChoreEntity}
    (h : restore_state snap e = .ok e') : e'.hidden = e.hidden := by
  cases snap with
  | none =>
    simp only [restore_state] at h
    injection h with h
    rw [← h]
  | some st =>
    unfold restore_state at h
    split at h
    · next heq => exact absurd heq (by simp)
    · next st' heq =>
      split at h
      · exact absurd h (by simp)
      · injection h with h
        rw [← h]

/-- No post-startup operation touches the Calendar Aggregator's registry. -/
theorem runOp_calendarRegistry (entityId : String) (s : ChoreEntity × Hass)
    (op : ChoreOp) : (runOp entityId s op).2.calendarRegistry = s.2.calendarRegistry := by
  cases op <;> rfl

/-- No sequence of post-startup operations touches the Calendar Aggregator's
registry. -/
theorem runOps_calendarRegistry (entityId : String) (ops : List ChoreOp) :
    ∀ s, (runOps entityId s ops).2.calendarRegistry = s.2.calendarRegistry := by
  induction ops with
  | nil => intro s; rfl
  | cons op ops ih =>
    intro s
    rw [show runOps entityId s (op :: ops) = runOps entityId (runOp entityId s op) ops
      from rfl, ih, runOp_calendarRegistry]

/-- C4: a hidden chore's identifier is never in the Calendar Aggregator's
registry after startup, under any subsequent sequence of completion,
assignment, overdue and recompute operations: startup never calls
`add_entity` for a hidden chore, and no operation does either. -/
theorem C4_hidden_never_in_calendar (e : ChoreEntity) (h : Hass)
    (snap : Option RestoredState) (entityId : String) (ops : List ChoreOp)
    (s' : ChoreEntity × Hass) (hHidden : e.hidden = true)
    (hPre : entityId ∉ h.calendarRegistry)
    (hStart : async_added_to_hass snap entityId (e, h) = .ok s') :
    entityId ∉ s'.2.calendarRegistry ∧
      entityId ∉ (runOps entityId s' ops).2.calendarRegistry := by
  unfold async_added_to_hass at hStart
  split at hStart
  · exact absurd hStart (by simp)
  · next e'' heq =>
    injection hStart with hStart
    have hh : e''.hidden = true := by
      rw [restore_state_ok_hidden heq, hHidden]
    have hcal : (add_to_calendar e'' entityId h).calendarRegistry = h.calendarRegistry := by
      unfold add_to_calendar
      rw [hh]
      rfl
    rw [← hStart]
    constructor
    · simpa [hcal] using hPre
    · rw [runOps_calendarRegistry]
      simpa [hcal] using hPre

/-- C4 (witness): a concrete hidden chore, restored from nothing, stays out
of the calendar registry across a completion, an assignment and a schedule
recomputation. -/
theorem C4_hidden_never_in_calendar_witness :
    "sensor.chore_1" ∉
      (runOps "sensor.chore_1" (sampleEntity true, emptyHass)
        [.assign "bob" sampleNow, .complete Option.none sampleNow sampleNow,
          .recompute sampleNow]).2.calendarRegistry :=
  (C4_hidden_never_in_calendar (sampleEntity true) emptyHass Option.none "sensor.chore_1"
    [.assign "bob" sampleNow, .complete Option.none sampleNow sampleNow,
      .recompute sampleNow] (sampleEntity true, emptyHass) rfl (by simp [emptyHass]) rfl).2

/-- C2 (code-bug evaluation): tearing down a chore whose identifier is in
both registries removes it from the sensor-platform registry but leaves it in
the Calendar Aggregator's registry, because `_remove_from_calendar()` is
called without `await`; the skipped coroutine body would have removed it. -/
theorem C2_teardown_keeps_calendar_entry :
    async_will_remove_from_hass "sensor.chore_1"
        { sensorRegistry := ["sensor.chore_1"], calendarCreated := true,
          calendarRegistry := ["sensor.chore_1"], forwardedSetups := 1, writeLog := [] } =
      .ok { sensorRegistry := [], calendarCreated := true,
            calendarRegistry := ["sensor.chore_1"], forwardedSetups := 1, writeLog := [] } ∧
    (remove_from_calendar_body "sensor.chore_1"
        { sensorRegistry := ["sensor.chore_1"], calendarCreated := true,
          calendarRegistry := ["sensor.chore_1"], forwardedSetups := 1,
          writeLog := [] }).calendarRegistry = [] := by
  exact ⟨by decide, by decide⟩

/-- C3 (code-bug evaluation): a chore constructed from the every-3-days
configuration carries frequency `""` (the constructor never reads the
configured frequency), so invoking its `calculate_next_due_date` — which
passes only that blank frequency to the helper — stores an absent next due
date; whereas the spec's scheduling computation applied to the actual
configuration with no prior completion yields 2024-01-04. -/
theorem C3_schedule_divergence :
    (choreInit Option.none c3Config).map
        (fun e => (e.frequency,
          (chore_calculate_next_due_date sampleNow "sensor.chore_1"
            (e, emptyHass)).1.nextDueDate)) =
      .ok ("", Option.none) ∧
    calculate_next_due_date c3Config Option.none = some ⟨2024, 1, 4⟩ := by
  exact ⟨by decide, by decide⟩

/-- `parse_optional_datetime` succeeds on every attribute value that is a
string or falsy (the restored date attributes are ISO-serialized strings when
present). -/
theorem parse_optional_datetime_ok (attrs : List (String × PyVal)) (key : String)
    (hlc : (getAttr attrs key).truthy = true → ∃ s, getAttr attrs key = .str s) :
    ∃ p, parse_optional_datetime attrs key = .ok p := by
  unfold parse_optional_datetime
  by_cases ht : (getAttr attrs key).truthy = true
  · obtain ⟨s, hs⟩ := hlc ht
    rw [hs] at ht
    rw [hs, if_pos ht]
    show ∃ p, (match datetimeFromIso s with
      | some dt => Except.ok ((some dt : Option DateTime), false)
      | _ => Except.ok ((Option.none : Option DateTime), true)) = Except.ok p
    cases hd : datetimeFromIso s with
    | none => exact ⟨(Option.none, true), rfl⟩
    | some dt => exact ⟨(some dt, false), rfl⟩
  · rw [if_neg ht]
    exact ⟨(Option.none, false), rfl⟩

/-- The spec-modelled `parse_optional_date` yields absent plus a warning on a
missing attribute or an unparseable string. -/
theorem parse_optional_date_absent (attrs : List (String × PyVal)) (key : String)
    (hc : getAttr attrs key = .none ∨
      ∃ s, getAttr attrs key = .str s ∧ dateFromIso s = Option.none) :
    parse_optional_date attrs key = (Option.none, true) := by
  unfold parse_optional_date
  rcases hc with hnone | ⟨s, hs, hp⟩
  · rw [hnone]
  · rw [hs]
    show (if s = "" then ((Option.none : Option Date), true)
      else match dateFromIso s with
        | some d => (some d, false)
        | _ => (Option.none, true)) = (Option.none, true)
    by_cases hse : s = ""
    · rw [if_pos hse]
    · rw [if_neg hse, hp]

/-- Restoring from a snapshot whose `last_completed` parse succeeds yields
exactly the record `_restore_state` writes. -/
theorem restore_state_some_eq (st : RestoredState) (e : ChoreEntity)
    (lc : Option DateTime) (lg : Bool)
    (hpe : parse_optional_datetime st.attributes "last_completed" = .ok (lc, lg)) :
    restore_state (some st) e = .ok
      { e with
          attrState := .str st.state
          lastUpdated := Option.none
          days := getAttr st.attributes "days"
          nextDueDate := (parse_optional_date st.attributes "next_date").1
          lastCompleted := lc
          overdue := getAttrD st.attributes "overdue" (.bool false)
          overdueDays := getAttr st.attributes "overdue_days"
          offsetDates := getAttrD st.attributes "offset_dates" (.str "")
          addDates := getAttrD st.attributes "add_dates" (.str "")
          removeDates := getAttrD st.attributes "remove_dates" (.str "") } := by
  show (match parse_optional_datetime st.attributes "last_completed" with
    | Except.error err => Except.error err
    | Except.ok (lc', _) => Except.ok
      { e with
          attrState := .str st.state
          lastUpdated := Option.none
          days := getAttr st.attributes "days"
          nextDueDate := (parse_optional_date st.attributes "next_date").1
          lastCompleted := lc'
          overdue := getAttrD st.attributes "overdue" (.bool false)
          overdueDays := getAttr st.attributes "overdue_days"
          offsetDates := getAttrD st.attributes "offset_dates" (.str "")
          addDates := getAttrD st.attributes "add_dates" (.str "")
          removeDates := getAttrD st.attributes "remove_dates" (.str "") }) = _
  rw [hpe]

/-- C1: restoring any snapshot whose date attributes are strings or absent
never fails: `_restore_state` (and hence `async_added_to_hass`) completes,
the restored `next_due_date` is exactly what `parse_optional_date` yields,
and when the stored `next_date` is missing or an unparseable string the
restored `next_due_date` is absent and a warning is logged. -/
theorem C1_restoration_never_fails (st : String) (attrs : List (String × PyVal))
    (e : ChoreEntity) (entityId : String) (h : Hass)
    (hlc : (getAttr attrs "last_completed").truthy = true →
      ∃ s, getAttr attrs "last_completed" = .str s) :
    ∃ e', restore_state (some ⟨st, attrs⟩) e = .ok e' ∧
      (∃ s', async_added_to_hass (some ⟨st, attrs⟩) entityId (e, h) = .ok s') ∧
      e'.nextDueDate = (parse_optional_date attrs "next_date").1 ∧
      ((getAttr attrs "next_date" = .none ∨
          ∃ s, getAttr attrs "next_date" = .str s ∧ dateFromIso s = Option.none) →
        e'.nextDueDate = Option.none ∧ (parse_optional_date attrs "next_date").2 = true) := by
  obtain ⟨⟨lc, lg⟩, hpe⟩ := parse_optional_datetime_ok attrs "last_completed" hlc
  have hre := restore_state_some_eq ⟨st, attrs⟩ e lc lg hpe
  dsimp only at hre
  have hasync : ∃ s', async_added_to_hass (some ⟨st, attrs⟩) entityId (e, h) = .ok s' := by
    show ∃ s', (match restore_state (some ⟨st, attrs⟩) e with
      | Except.error err => Except.error err
      | Except.ok e'' => Except.ok (e'', add_to_calendar e'' entityId h)) = Except.ok s'
    rw [hre]
    exact ⟨_, rfl⟩
  refine ⟨_, hre, hasync, rfl, ?_⟩
  · intro hc
    have hpd := parse_optional_date_absent attrs "next_date" hc
    exact ⟨congrArg Prod.fst hpd, congrArg Prod.snd hpd⟩

/-- C1 (witness): restoring a snapshot whose `next_date` is an unparseable
string and whose `last_completed` is also garbage succeeds, with an absent
next due date and a logged warning. -/
theorem C1_restoration_never_fails_witness :
    ∃ e', restore_state
        (some ⟨"5", [("next_date", .str "not-a-date"), ("last_completed", .str "garbage")]⟩)
        (sampleEntity false) = .ok e' ∧
      e'.nextDueDate = Option.none ∧
      (parse_optional_date [("next_date", PyVal.str "not-a-date"),
        ("last_completed", PyVal.str "garbage")] "next_date").2 = true := by
  obtain ⟨e', h1, _, _, h4⟩ :=
    C1_restoration_never_fails "5"
      [("next_date", .str "not-a-date"), ("last_completed", .str "garbage")]
      (sampleEntity false) "sensor.chore_1" emptyHass
      (fun _ => ⟨"garbage", by decide⟩)
  obtain ⟨hnd, hw⟩ := h4 (Or.inr ⟨"not-a-date", by decide, by decide⟩)
  exact ⟨e', h1, hnd, hw⟩

/-- Full case analysis of `_validate_config`: it either succeeds — with
`day_of_month`, `weekday_order_number` and `chore_day` normalized, `user`
passed through, a sentinel `date` cleared, and any other present `date`
parseable — or fails with exactly `SchemaFlowError("month_day")`, on a
present, non-sentinel, unparseable `date`. -/
theorem validate_config_cases (data : DetailData) :
    (∃ out, validate_config data = .ok out ∧
      out.dayOfMonth = (match data.dayOfMonth with
        | some n => if n < 1 then Option.none else some n
        | _ => Option.none) ∧
      out.weekdayOrderNumber = (match data.weekdayOrderNumber with
        | some z => if z = 0 then Option.none else some z
        | _ => Option.none) ∧
      out.choreDay = (match data.choreDay with
        | some s => if s = "0" then Option.none else some s
        | _ => Option.none) ∧
      out.user = data.user ∧
      (∀ s, data.date = some s → (s = "0" ∨ s = "0/0" ∨ s = "") →
        out.date = Option.none) ∧
      (∀ s, data.date = some s → ¬(s = "0" ∨ s = "0/0" ∨ s = "") →
        strptimeMD s.data ≠ Option.none)) ∨
    (validate_config data = .error (.schemaFlowError "month_day") ∧
      ∃ s, data.date = some s ∧ ¬(s = "0" ∨ s = "0/0" ∨ s = "") ∧
        strptimeMD s.data = Option.none) := by
  unfold validate_config
  dsimp only
  split
  · next s heq =>
    split
    · next hsent =>
      left
      refine ⟨_, rfl, rfl, rfl, rfl, rfl, ?_, ?_⟩
      · intro s' _ _
        rfl
      · intro s' hs' hns'
        rw [heq] at hs'
        injection hs' with hs'
        subst hs'
        exact absurd hsent hns'
    · next hsent =>
      split
      · next t hmt =>
        left
        refine ⟨_, rfl, rfl, rfl, rfl, rfl, ?_, ?_⟩
        · intro s' hs' hsent'
          rw [heq] at hs'
          injection hs' with hs'
          subst hs'
          exact absurd hsent' hsent
        · intro s' hs' _ hnone
          rw [heq] at hs'
          injection hs' with hseq
          have hne : s ≠ "" := fun hc => hsent (Or.inr (Or.inr hc))
          rw [← hseq] at hnone
          obtain ⟨er, herr⟩ := (month_day_text_err_iff s hne).mpr hnone
          rw [hmt] at herr
          exact absurd herr (by simp)
      · next er hmt =>
        right
        refine ⟨rfl, s, heq, hsent, ?_⟩
        have hne : s ≠ "" := fun hc => hsent (Or.inr (Or.inr hc))
        exact (month_day_text_err_iff s hne).mp ⟨er, hmt⟩
  · next heq =>
    left
    refine ⟨_, rfl, rfl, rfl, rfl, rfl, ?_, ?_⟩
    · intro s hs _
      exact (heq s hs).elim
    · intro s hs _
      exact (heq s hs).elim

/-- C6: the detail-step validation normalizes `day_of_month` below 1, a
sentinel `date` (`""`, `"0"`, `"0/0"`), a zero `weekday_order_number` and a
`"0"` `chore_day` to absent without raising, passes `user` through, and
raises a field error tagged `"month_day"` exactly when the `date` field is
present, not one of those sentinels, and does not parse as `MM/DD`. -/
theorem C6_validate_config_contract (data : DetailData) :
    (validate_config data = .error (.schemaFlowError "month_day") ↔
      ∃ s, data.date = some s ∧ ¬(s = "0" ∨ s = "0/0" ∨ s = "") ∧
        strptimeMD s.data = Option.none) ∧
    (∀ er, validate_config data = .error er → er = .schemaFlowError "month_day") ∧
    (∀ out, validate_config data = .ok out →
      (∀ n : Int, data.dayOfMonth = some n → n < 1 → out.dayOfMonth = Option.none) ∧
      ((data.date = some "" ∨ data.date = some "0" ∨ data.date = some "0/0") →
        out.date = Option.none) ∧
      (data.weekdayOrderNumber = some 0 → out.weekdayOrderNumber = Option.none) ∧
      (data.choreDay = some "0" → out.choreDay = Option.none) ∧
      out.user = data.user) := by
  rcases validate_config_cases data with
    ⟨out, hok, hdom, hwon, hcd, huser, hsent, hparse⟩ | ⟨herr, s, hs, hns, hnone⟩
  · refine ⟨?_, ?_, ?_⟩
    · constructor
      · intro hcontra
        rw [hok] at hcontra
        exact absurd hcontra (by simp)
      · rintro ⟨s, hs, hns, hnone⟩
        exact absurd hnone (hparse s hs hns)
    · intro er hcontra
      rw [hok] at hcontra
      exact absurd hcontra (by simp)
    · intro out' hok'
      rw [hok] at hok'
      injection hok' with hout
      subst hout
      refine ⟨?_, ?_, ?_, ?_, huser⟩
      · intro n hn hlt
        rw [hdom, hn]
        simp [hlt]
      · intro hd
        rcases hd with hd | hd | hd
        · exact hsent "" hd (Or.inr (Or.inr rfl))
        · exact hsent "0" hd (Or.inl rfl)
        · exact hsent "0/0" hd (Or.inr (Or.inl rfl))
      · intro hw
        rw [hwon, hw]
        simp
      · intro hc
        rw [hcd, hc]
        simp
  · refine ⟨?_, ?_, ?_⟩
    · exact ⟨fun _ => ⟨s, hs, hns, hnone⟩, fun _ => herr⟩
    · intro er hcontra
      rw [herr] at hcontra
      injection hcontra with h
      rw [← h]
    · intro out hok
      rw [herr] at hok
      exact absurd hok (by simp)

/-- C6 (witness): the contract applied to a concrete submission with
`day_of_month = 0`, `date = "0/0"`, `weekday_order_number = 0` and
`chore_day = "0"`, and to one with an unparseable date. -/
theorem C6_validate_config_contract_witness :
    (validate_config ⟨some 0, some "0/0", some 0, some "0", some "u"⟩ =
      .error (.schemaFlowError "month_day") → False) ∧
    validate_config ⟨Option.none, some "13/05", Option.none, Option.none, Option.none⟩ =
      .error (.schemaFlowError "month_day") := by
  constructor
  · intro hcontra
    obtain ⟨s, hs, hns, _⟩ :=
      (C6_validate_config_contract ⟨some 0, some "0/0", some 0, some "0", some "u"⟩).1.mp
        hcontra
    injection hs with hs
    exact hns (by rw [← hs]; exact Or.inr (Or.inl rfl))
  · exact (C6_validate_config_contract
      ⟨Option.none, some "13/05", Option.none, Option.none, Option.none⟩).1.mpr
      ⟨"13/05", rfl, by decide, by decide⟩
